import Mathlib

/-!
Verification of the batched remote-upload routine and the pipeline runners of
the waiverwire NFL data scripts.

The embedding translates `scripts/nfl-data-pipeline.py` (class `NFLDataPipeline`)
and `scripts/simple-nfl-data-fetch.py` (class `SimpleNFLDataFetcher`) into pure
Lean functions.  Network interaction is modelled by an oracle
`net : Nat -> NetResult` giving, for the k-th POST issued, either an HTTP status
code or a transport-level exception.  Records are an abstract type `α` because
the uploader never inspects record contents.
-/

namespace WaiverWire

/-- Result of one `requests.post` call: either a response with a status code,
or a transport-level exception carrying a message. -/
inductive NetResult where
  | status (code : Nat)
  | exc (msg : String)
deriving DecidableEq

/-- The two module-level credentials read from the environment in
`NFLDataPipeline.__init__`: `os.getenv` yields `None` (here `none`) when the
variable is unset. -/
structure Config where
  supabase_url : Option String
  supabase_key : Option String

/-- Python truthiness of an `os.getenv` result: `None` and the empty string are
falsy, every other string is truthy.  `if not self.supabase_url` branches on
the negation of this. -/
def truthy : Option String → Bool
  | none => false
  | some s => !s.isEmpty

/-- The static `table_mapping` dict literal inside `update_supabase_database`. -/
def table_mapping : List (String × String) :=
  [("players", "nfl_players"),
   ("stats", "player_game_stats"),
   ("projections", "player_projections")]

/-- `table_mapping.get(data_type, data_type)`: the mapped table name when the
key is present, the literal `data_type` otherwise. -/
def tableName (data_type : String) : String :=
  match table_mapping.lookup data_type with
  | some t => t
  | none => data_type

/-- The `batch_size = 100` local of `update_supabase_database`. -/
def batch_size : Nat := 100

/-- Python `range(start, stop, step)` for a positive step: the ascending list
`start, start+step, ...` of values below `stop`. -/
def pyRange (start stop step : Nat) : List Nat :=
  if h : 0 < step ∧ start < stop then
    start :: pyRange (start + step) stop step
  else []
termination_by stop - start
decreasing_by omega

/-- Python slice `data[i:j]` on a list (clamping semantics for in-range
nonnegative bounds): drop `i` elements then take `j - i`. -/
def pySlice {α : Type} (data : List α) (i j : Nat) : List α :=
  (data.drop i).take (j - i)

/-- One network write as issued by the uploader: the request URL and the JSON
array body (the batch). -/
structure Call (α : Type) where
  url : String
  body : List α
deriving DecidableEq

/-- The `for i in range(0, len(data), batch_size)` loop body of
`update_supabase_database`: slice the batch, POST it, then either abort with
`False` (non-2xx status, or a transport exception caught by the enclosing
`except`) or continue.  Returns the Python return value together with the list
of calls actually issued, in order. -/
def uploadLoop {α : Type} (url : String) (net : Nat → NetResult) (data : List α) :
    List Nat → Nat → Bool × List (Call α)
  | [], _ => (true, [])
  | i :: is, k =>
    let batch := pySlice data i (i + batch_size)
    match net k with
    | NetResult.exc _ => (false, [Call.mk url batch])
    | NetResult.status c =>
      if c = 200 ∨ c = 201 then
        let r := uploadLoop url net data is (k + 1)
        (r.1, Call.mk url batch :: r.2)
      else
        (false, [Call.mk url batch])

/-- `NFLDataPipeline.update_supabase_database(data_type, data)`.  Returns the
boolean result together with the list of POST calls issued. -/
def update_supabase_database {α : Type} (cfg : Config) (net : Nat → NetResult)
    (data_type : String) (data : List α) : Bool × List (Call α) :=
  if !(truthy cfg.supabase_url) || !(truthy cfg.supabase_key) then
    (false, [])
  else
    uploadLoop (cfg.supabase_url.getD "" ++ "/rest/v1/" ++ tableName data_type)
      net data (pyRange 0 data.length batch_size) 0

/-- The batches the uploader forms: one slice `data[i:i+batch_size]` per loop
index `i in range(0, len(data), batch_size)`. -/
def pyBatches {α : Type} (data : List α) : List (List α) :=
  (pyRange 0 data.length batch_size).map (fun i => pySlice data i (i + batch_size))

/-- A response counts as successful exactly when it is a status in {200, 201}. -/
def isOk : NetResult → Bool
  | NetResult.status c => decide (c = 200 ∨ c = 201)
  | NetResult.exc _ => false

/-- Reference chunking: repeatedly take the first `batch_size` elements.  Used
to relate the index-based slicing of the source loop to a structural recursion. -/
def chunk100 {α : Type} : List α → List (List α)
  | [] => []
  | a :: as => ((a :: as).take batch_size) :: chunk100 ((a :: as).drop batch_size)
termination_by l => l.length
decreasing_by simp [batch_size]; omega

theorem pyRange_eq (start stop step : Nat) :
    pyRange start stop step =
      if 0 < step ∧ start < stop then start :: pyRange (start + step) stop step
      else [] := by
  rw [pyRange]
  split <;> rfl

theorem pyRange_shift (s n step d : Nat) :
    pyRange (s + d) (n + d) step = (pyRange s n step).map (fun x => x + d) := by
  rw [pyRange_eq s n step, pyRange_eq (s + d) (n + d) step]
  by_cases h : 0 < step ∧ s < n
  · have h' : 0 < step ∧ s + d < n + d := ⟨h.1, by omega⟩
    rw [if_pos h', if_pos h]
    have hrec := pyRange_shift (s + step) n step d
    simp only [List.map_cons]
    rw [show s + d + step = s + step + d by omega, hrec]
  · have h' : ¬(0 < step ∧ s + d < n + d) := by omega
    rw [if_neg h', if_neg h]
    rfl
termination_by n - s
decreasing_by omega

theorem chunk100_flatten {α : Type} (l : List α) : (chunk100 l).flatten = l := by
  match l with
  | [] => rw [chunk100]; rfl
  | a :: as =>
    rw [chunk100]
    have hrec := chunk100_flatten ((a :: as).drop batch_size)
    simp only [List.flatten_cons]
    rw [hrec, List.take_append_drop]
termination_by l.length
decreasing_by simp [batch_size]; omega

theorem chunk100_sizes {α : Type} (l : List α) :
    ∀ b ∈ chunk100 l, b.length ≤ batch_size := by
  match l with
  | [] => intro b hb; rw [chunk100] at hb; simp at hb
  | a :: as =>
    intro b hb
    rw [chunk100] at hb
    rcases List.mem_cons.mp hb with hb | hb
    · subst hb; exact List.length_take_le _ _
    · exact chunk100_sizes ((a :: as).drop batch_size) b hb
termination_by l.length
decreasing_by simp [batch_size]; omega

theorem pyBatches_eq_chunk100 {α : Type} (l : List α) :
    pyBatches l = chunk100 l := by
  match l with
  | [] =>
    rw [chunk100]
    rw [pyBatches, pyRange_eq]
    simp
  | a :: as =>
    rw [chunk100, pyBatches, pyRange_eq]
    have hpos : 0 < batch_size ∧ 0 < (a :: as).length := by
      simp [batch_size]
    rw [if_pos hpos, List.map_cons]
    have hhead : pySlice (a :: as) 0 (0 + batch_size) = (a :: as).take batch_size := by
      simp [pySlice]
    rw [hhead]
    by_cases hle : (a :: as).length ≤ batch_size
    · have hemp : pyRange (0 + batch_size) (a :: as).length batch_size = [] := by
        rw [pyRange_eq]
        rw [if_neg]
        omega
      have hdropnil : (a :: as).drop batch_size = [] :=
        List.drop_eq_nil_of_le hle
      rw [hemp, hdropnil, chunk100]
      rfl
    · push_neg at hle
      have hlen : (a :: as).length = ((a :: as).length - batch_size) + batch_size := by
        omega
      have hshift :
          pyRange (0 + batch_size) (a :: as).length batch_size =
            (pyRange 0 ((a :: as).length - batch_size) batch_size).map
              (fun x => x + batch_size) := by
        conv_lhs => rw [hlen]
        exact pyRange_shift 0 ((a :: as).length - batch_size) batch_size batch_size
      rw [hshift, List.map_map]
      have hmapeq :
          (fun i => pySlice (a :: as) i (i + batch_size)) ∘ (fun x => x + batch_size) =
            fun i => pySlice ((a :: as).drop batch_size) i (i + batch_size) := by
        funext i
        simp only [Function.comp_apply, pySlice, List.drop_drop]
        have h1 : i + batch_size + batch_size - (i + batch_size) = batch_size := by omega
        have h2 : i + batch_size - i = batch_size := by omega
        rw [h1, h2, Nat.add_comm batch_size i]
      rw [hmapeq]
      have hdlen : ((a :: as).drop batch_size).length = (a :: as).length - batch_size := by
        simp
      have hrec := pyBatches_eq_chunk100 ((a :: as).drop batch_size)
      rw [pyBatches, hdlen] at hrec
      rw [hrec]
termination_by l.length
decreasing_by simp [batch_size]; omega

theorem uploadLoop_step_ok {α : Type} (url : String) (net : Nat → NetResult)
    (data : List α) (i : Nat) (is : List Nat) (k c : Nat)
    (hnet : net k = NetResult.status c) (hc : c = 200 ∨ c = 201) :
    uploadLoop url net data (i :: is) k =
      ((uploadLoop url net data is (k + 1)).1,
        Call.mk url (pySlice data i (i + batch_size)) ::
          (uploadLoop url net data is (k + 1)).2) := by
  simp only [uploadLoop, hnet, if_pos hc]

theorem uploadLoop_step_badstatus {α : Type} (url : String) (net : Nat → NetResult)
    (data : List α) (i : Nat) (is : List Nat) (k c : Nat)
    (hnet : net k = NetResult.status c) (hc : ¬(c = 200 ∨ c = 201)) :
    uploadLoop url net data (i :: is) k =
      (false, [Call.mk url (pySlice data i (i + batch_size))]) := by
  simp only [uploadLoop, hnet, if_neg hc]

theorem uploadLoop_step_exc {α : Type} (url : String) (net : Nat → NetResult)
    (data : List α) (i : Nat) (is : List Nat) (k : Nat) (m : String)
    (hnet : net k = NetResult.exc m) :
    uploadLoop url net data (i :: is) k =
      (false, [Call.mk url (pySlice data i (i + batch_size))]) := by
  simp only [uploadLoop, hnet]

theorem uploadLoop_all_ok {α : Type} (url : String) (net : Nat → NetResult)
    (data : List α) (idxs : List Nat) :
    ∀ k : Nat, (∀ m, m < idxs.length → isOk (net (k + m)) = true) →
      uploadLoop url net data idxs k =
        (true, idxs.map (fun i => Call.mk url (pySlice data i (i + batch_size)))) := by
  induction idxs with
  | nil => intro k _; rfl
  | cons i is ih =>
    intro k h
    have h0 : isOk (net k) = true := by
      have := h 0 (by simp)
      simpa using this
    cases hnet : net k with
    | exc m => rw [hnet] at h0; simp [isOk] at h0
    | status c =>
      rw [hnet] at h0
      have hc : c = 200 ∨ c = 201 := by simpa [isOk] using h0
      rw [uploadLoop_step_ok url net data i is k c hnet hc]
      have hrest : ∀ m, m < is.length → isOk (net (k + 1 + m)) = true := by
        intro m hm
        have := h (m + 1) (by simp; omega)
        rwa [show k + (m + 1) = k + 1 + m by omega] at this
      rw [ih (k + 1) hrest]
      rfl

theorem uploadLoop_fail_at {α : Type} (url : String) (net : Nat → NetResult)
    (data : List α) :
    ∀ (idxs : List Nat) (k j : Nat), j < idxs.length →
      (∀ m, m < j → isOk (net (k + m)) = true) → isOk (net (k + j)) = false →
      (uploadLoop url net data idxs k).1 = false ∧
        (uploadLoop url net data idxs k).2.length = j + 1 := by
  intro idxs
  induction idxs with
  | nil => intro k j hj _ _; simp at hj
  | cons i is ih =>
    intro k j hj hpre hbad
    match j with
    | 0 =>
      rw [show k + 0 = k by omega] at hbad
      cases hnet : net k with
      | exc m =>
        rw [uploadLoop_step_exc url net data i is k m hnet]
        exact ⟨rfl, rfl⟩
      | status c =>
        rw [hnet] at hbad
        have hc : ¬(c = 200 ∨ c = 201) := by simpa [isOk] using hbad
        rw [uploadLoop_step_badstatus url net data i is k c hnet hc]
        exact ⟨rfl, rfl⟩
    | j' + 1 =>
      have h0 : isOk (net k) = true := by
        have := hpre 0 (by omega)
        simpa using this
      cases hnet : net k with
      | exc m => rw [hnet] at h0; simp [isOk] at h0
      | status c =>
        rw [hnet] at h0
        have hc : c = 200 ∨ c = 201 := by simpa [isOk] using h0
        rw [uploadLoop_step_ok url net data i is k c hnet hc]
        have hj' : j' < is.length := by simpa using hj
        have hpre' : ∀ m, m < j' → isOk (net (k + 1 + m)) = true := by
          intro m hm
          have := hpre (m + 1) (by omega)
          rwa [show k + (m + 1) = k + 1 + m by omega] at this
        have hbad' : isOk (net (k + 1 + j')) = false := by
          rwa [show k + (j' + 1) = k + 1 + j' by omega] at hbad
        have hr := ih (k + 1) j' hj' hpre' hbad'
        constructor
        · exact hr.1
        · simpa using hr.2

theorem uploadLoop_urls {α : Type} (url : String) (net : Nat → NetResult)
    (data : List α) :
    ∀ (idxs : List Nat) (k : Nat), ∀ c ∈ (uploadLoop url net data idxs k).2,
      c.url = url := by
  intro idxs
  induction idxs with
  | nil => intro k c hc; simp [uploadLoop] at hc
  | cons i is ih =>
    intro k c hc
    cases hnet : net k with
    | exc m =>
      rw [uploadLoop_step_exc url net data i is k m hnet] at hc
      simp at hc
      rw [hc]
    | status code =>
      by_cases hcode : code = 200 ∨ code = 201
      · rw [uploadLoop_step_ok url net data i is k code hnet hcode] at hc
        rcases List.mem_cons.mp hc with hc | hc
        · rw [hc]
        · exact ih (k + 1) c hc
      · rw [uploadLoop_step_badstatus url net data i is k code hnet hcode] at hc
        simp at hc
        rw [hc]

theorem update_supabase_database_creds {α : Type} (cfg : Config)
    (net : Nat → NetResult) (data_type : String) (data : List α)
    (hu : truthy cfg.supabase_url = true) (hk : truthy cfg.supabase_key = true) :
    update_supabase_database cfg net data_type data =
      uploadLoop (cfg.supabase_url.getD "" ++ "/rest/v1/" ++ tableName data_type)
        net data (pyRange 0 data.length batch_size) 0 := by
  rw [update_supabase_database, hu, hk]
  rfl

/-!
State-threading variant of the uploader: the caller's `data` list is carried
through every operation of the source that touches it, each mapped to its
Python semantics on the list: `len(data)` reads the list and leaves it
unchanged; the slice `data[i:i+batch_size]` allocates a fresh list and leaves
the sliced list unchanged.  The second component of each result is the state of
the caller's list after the operation.
-/

/-- Python `len(data)`: returns the length, list unchanged. -/
def pyLen {α : Type} (data : List α) : Nat × List α := (data.length, data)

/-- Python slice `data[i:j]`: returns a fresh copy of the slice; the sliced
list itself is unchanged. -/
def pySliceOp {α : Type} (data : List α) (i j : Nat) : (List α) × List α :=
  (pySlice data i j, data)

/-- The upload loop with the caller's list threaded as explicit state. -/
def uploadLoopSt {α : Type} (url : String) (net : Nat → NetResult) :
    List Nat → Nat → List α → (Bool × List (Call α)) × List α
  | [], _, data => ((true, []), data)
  | i :: is, k, data =>
    let sliced := pySliceOp data i (i + batch_size)
    let batch := sliced.1
    let data1 := sliced.2
    match net k with
    | NetResult.exc _ => ((false, [Call.mk url batch]), data1)
    | NetResult.status c =>
      if c = 200 ∨ c = 201 then
        let r := uploadLoopSt url net is (k + 1) data1
        ((r.1.1, Call.mk url batch :: r.1.2), r.2)
      else
        ((false, [Call.mk url batch]), data1)

/-- `update_supabase_database` with the caller's list threaded as explicit
state; the final component is the state of the caller's list when the call
returns. -/
def update_supabase_database_st {α : Type} (cfg : Config) (net : Nat → NetResult)
    (data_type : String) (data : List α) : (Bool × List (Call α)) × List α :=
  if !(truthy cfg.supabase_url) || !(truthy cfg.supabase_key) then
    ((false, []), data)
  else
    let lenRead := pyLen data
    uploadLoopSt (cfg.supabase_url.getD "" ++ "/rest/v1/" ++ tableName data_type)
      net (pyRange 0 lenRead.1 batch_size) 0 lenRead.2

theorem uploadLoopSt_spec {α : Type} (url : String) (net : Nat → NetResult) :
    ∀ (idxs : List Nat) (k : Nat) (data : List α),
      uploadLoopSt url net idxs k data = (uploadLoop url net data idxs k, data) := by
  intro idxs
  induction idxs with
  | nil => intro k data; rfl
  | cons i is ih =>
    intro k data
    cases hnet : net k with
    | exc m =>
      simp only [uploadLoopSt, uploadLoop, pySliceOp, hnet]
    | status c =>
      by_cases hc : c = 200 ∨ c = 201
      · simp only [uploadLoopSt, uploadLoop, pySliceOp, hnet, if_pos hc, ih (k + 1) data]
      · simp only [uploadLoopSt, uploadLoop, pySliceOp, hnet, if_neg hc]

/-!
The full pipeline of `nfl-data-pipeline.py`.  Each fetch step performs an
upstream call and a file write inside a `try` block; both are summarised by an
environment value of type `Except String (List α)`: `.ok rows` when the
`try` body completes returning `rows`, `.error e` when any exception `e` is
raised inside it.
-/

/-- `fetch_roster_data`: on success return the rosters, on any exception print
and return the empty `pd.DataFrame()`. -/
def fetch_roster_data {α : Type} (src : Except String (List α)) : List α :=
  match src with
  | Except.ok rosters => rosters
  | Except.error _ => []

/-- `fetch_player_stats(stat_type)`: identical catch-all shape; `stat_type`
only selects which columns the upstream call requests. -/
def fetch_player_stats {α : Type} (stat_type : String)
    (src : Except String (List α)) : List α :=
  match stat_type, src with
  | _, Except.ok stats => stats
  | _, Except.error _ => []

/-- `fetch_schedule_data`: identical catch-all shape. -/
def fetch_schedule_data {α : Type} (src : Except String (List α)) : List α :=
  match src with
  | Except.ok schedule => schedule
  | Except.error _ => []

/-- `fetch_injury_reports`: identical catch-all shape. -/
def fetch_injury_reports {α : Type} (src : Except String (List α)) : List α :=
  match src with
  | Except.ok injuries => injuries
  | Except.error _ => []

/-- `fetch_team_data`: identical catch-all shape. -/
def fetch_team_data {α : Type} (src : Except String (List α)) : List α :=
  match src with
  | Except.ok teams => teams
  | Except.error _ => []

/-- The dict built by `create_player_projections_dataset`: weekly, seasonal and
play-by-play record collections. -/
structure ProjectionDataset (α : Type) where
  weekly_stats : List α
  seasonal_stats : List α
  advanced_metrics : List α

/-- `create_player_projections_dataset`: on success the populated dict, on any
exception the empty dict `\x7b\x7d` (here `none`). -/
def create_player_projections_dataset {α : Type}
    (src : Except String (ProjectionDataset α)) : Option (ProjectionDataset α) :=
  match src with
  | Except.ok dataset => some dataset
  | Except.error _ => none

/-- The upstream outcomes of the eight steps of `run_full_pipeline`, in the
order the source calls them. -/
structure PipelineEnv (α : Type) where
  teams : Except String (List α)
  rosters : Except String (List α)
  schedule : Except String (List α)
  injuries : Except String (List α)
  passing : Except String (List α)
  rushing : Except String (List α)
  receiving : Except String (List α)
  projections : Except String (ProjectionDataset α)

/-- Record count of a projection dataset result, taken as 0 for the empty
dict. -/
def projCount {α : Type} : Option (ProjectionDataset α) → Nat
  | some dataset => dataset.weekly_stats.length
  | none => 0

/-- `run_full_pipeline`: calls the eight steps in source order; since every
step catches its own exceptions, every step runs.  Returns the executed steps
in order, each with the size of its result. -/
def run_full_pipeline {α : Type} (env : PipelineEnv α) : List (String × Nat) :=
  [("teams", (fetch_team_data env.teams).length),
   ("rosters", (fetch_roster_data env.rosters).length),
   ("schedule", (fetch_schedule_data env.schedule).length),
   ("injuries", (fetch_injury_reports env.injuries).length),
   ("passing", (fetch_player_stats "passing" env.passing).length),
   ("rushing", (fetch_player_stats "rushing" env.rushing).length),
   ("receiving", (fetch_player_stats "receiving" env.receiving).length),
   ("projections", projCount (create_player_projections_dataset env.projections))]

/-!
The simplified pipeline of `simple-nfl-data-fetch.py`.  Its four steps build
static data and write one or more files; each step's outcome is an environment
value, `.error e` when the step raises `e`.  `run_simple_pipeline` wraps the
four calls in a single `try`; the `except` clause prints a failure message and
then re-raises the same exception with a bare `raise`.
-/

/-- The outcomes of the four steps of `run_simple_pipeline`, in source order. -/
structure SimpleEnv (α : Type) where
  teams : Except String (List α)
  rosters : Except String (List α)
  stats : Except String (List α)
  projections : Except String (List α)

/-- The `try` body of `run_simple_pipeline`: run the four steps in order,
stopping at the first raised exception. -/
def simplePipelineBody {α : Type} (env : SimpleEnv α) : Except String Unit := do
  let _ ← env.teams
  let _ ← env.rosters
  let _ ← env.stats
  let _ ← env.projections
  pure ()

/-- `run_simple_pipeline`: returns the printed log line together with the
outcome; a failure is logged and the same exception re-raised. -/
def run_simple_pipeline {α : Type} (env : SimpleEnv α) :
    String × Except String Unit :=
  match simplePipelineBody env with
  | Except.ok _ => ("Simple NFL data pipeline completed successfully!", Except.ok ())
  | Except.error e => ("Pipeline failed: " ++ e, Except.error e)

theorem pyRange_0_250 : pyRange 0 250 batch_size = [0, 100, 200] := by
  rw [show batch_size = 100 from rfl]
  rw [pyRange_eq, if_pos (by omega)]
  norm_num
  rw [pyRange_eq, if_pos (by omega)]
  norm_num
  rw [pyRange_eq, if_pos (by omega)]
  norm_num
  rw [pyRange_eq, if_neg (by omega)]

theorem pyRange_zero_len (step : Nat) : pyRange 0 0 step = [] := by
  rw [pyRange_eq, if_neg (by omega)]

/-- C1: for every input record sequence, the batches formed by the uploader
are consecutive slices of at most 100 records each, and their concatenation,
in the order they are sent, equals the original input sequence exactly. -/
theorem C1_batches_partition_input {α : Type} (cfg : Config)
    (net : Nat → NetResult) (data_type : String) (data : List α)
    (hu : truthy cfg.supabase_url = true) (hk : truthy cfg.supabase_key = true)
    (hok : ∀ k, isOk (net k) = true) :
    (update_supabase_database cfg net data_type data).2.map Call.body = pyBatches data
    ∧ (pyBatches data).flatten = data
    ∧ ∀ b ∈ pyBatches data, b.length ≤ 100 := by
  refine ⟨?_, ?_, ?_⟩
  · rw [update_supabase_database_creds cfg net data_type data hu hk]
    rw [uploadLoop_all_ok _ net data _ 0 (fun m _ => hok (0 + m))]
    rw [pyBatches, List.map_map]
    rfl
  · rw [pyBatches_eq_chunk100]
    exact chunk100_flatten data
  · intro b hb
    rw [pyBatches_eq_chunk100] at hb
    have := chunk100_sizes data b hb
    simpa [batch_size] using this

theorem C1_batches_partition_input_witness :
    ((update_supabase_database ⟨some "u", some "k"⟩ (fun _ => NetResult.status 200)
        "players" [1, 2, 3]).2.map Call.body = pyBatches [1, 2, 3])
    ∧ (pyBatches [1, 2, 3]).flatten = [1, 2, 3] := by
  have h := C1_batches_partition_input ⟨some "u", some "k"⟩
    (fun _ => NetResult.status 200) "players" [1, 2, 3] rfl rfl (fun _ => rfl)
  exact ⟨h.1, h.2.1⟩

/-- C2: with credentials present, a batch is successful iff its status is 200
or 201; if every batch status is OK the upload returns true after issuing one
call per batch, and on the first batch whose status is neither 200 nor 201 the
upload issues no further batch requests and returns false. -/
theorem C2_success_iff_2xx_abort_on_first_bad {α : Type} (cfg : Config)
    (net : Nat → NetResult) (data_type : String) (data : List α)
    (hu : truthy cfg.supabase_url = true) (hk : truthy cfg.supabase_key = true) :
    ((∀ k, k < (pyRange 0 data.length batch_size).length → isOk (net k) = true) →
      (update_supabase_database cfg net data_type data).1 = true
      ∧ (update_supabase_database cfg net data_type data).2.length =
          (pyRange 0 data.length batch_size).length)
    ∧ (∀ j c, j < (pyRange 0 data.length batch_size).length →
        (∀ m, m < j → isOk (net m) = true) →
        net j = NetResult.status c → ¬(c = 200 ∨ c = 201) →
        (update_supabase_database cfg net data_type data).1 = false
        ∧ (update_supabase_database cfg net data_type data).2.length = j + 1) := by
  constructor
  · intro hall
    rw [update_supabase_database_creds cfg net data_type data hu hk]
    rw [uploadLoop_all_ok _ net data _ 0 (fun m hm => hall (0 + m) (by simpa using hm))]
    simp
  · intro j c hj hpre hnet hc
    rw [update_supabase_database_creds cfg net data_type data hu hk]
    refine uploadLoop_fail_at _ net data _ 0 j hj
      (fun m hm => by simpa using hpre m hm) ?_
    have : isOk (net j) = false := by
      rw [hnet]
      simpa [isOk] using hc
    simpa using this

theorem C2_success_iff_2xx_abort_on_first_bad_witness :
    (update_supabase_database ⟨some "u", some "k"⟩
        (fun k => if k == 1 then NetResult.status 500 else NetResult.status 200)
        "stats" (List.range 250)).1 = false
    ∧ (update_supabase_database ⟨some "u", some "k"⟩
        (fun k => if k == 1 then NetResult.status 500 else NetResult.status 200)
        "stats" (List.range 250)).2.length = 2 :=
  (C2_success_iff_2xx_abort_on_first_bad ⟨some "u", some "k"⟩
      (fun k => if k == 1 then NetResult.status 500 else NetResult.status 200)
      "stats" (List.range 250) rfl rfl).2 1 500
    (by norm_num [pyRange_0_250])
    (by
      intro m hm
      have hm0 : m = 0 := by omega
      subst hm0
      rfl)
    rfl
    (by decide)

/-- C3: if either the endpoint base URL or the access key is absent, the
upload performs zero network calls and returns false, for every data type and
every record sequence. -/
theorem C3_missing_credentials_skip {α : Type} (cfg : Config)
    (net : Nat → NetResult) (data_type : String) (data : List α)
    (habsent : cfg.supabase_url = none ∨ cfg.supabase_key = none) :
    update_supabase_database cfg net data_type data = (false, []) := by
  rw [update_supabase_database]
  rcases habsent with h | h <;> rw [h] <;> simp [truthy]

theorem C3_missing_credentials_skip_witness :
    update_supabase_database ⟨none, some "k"⟩ (fun _ => NetResult.status 200)
        "players" [1, 2, 3] = (false, []) :=
  C3_missing_credentials_skip ⟨none, some "k"⟩ (fun _ => NetResult.status 200)
    "players" [1, 2, 3] (Or.inl rfl)

/-- C6: with credentials present and an empty record sequence, the upload
performs zero network calls and returns true. -/
theorem C6_empty_records_trivial_success {α : Type} (cfg : Config)
    (net : Nat → NetResult) (data_type : String)
    (hu : truthy cfg.supabase_url = true) (hk : truthy cfg.supabase_key = true) :
    update_supabase_database cfg net data_type ([] : List α) = (true, []) := by
  rw [update_supabase_database_creds cfg net data_type [] hu hk]
  rw [show (([] : List α)).length = 0 from rfl, pyRange_zero_len]
  rfl

theorem C6_empty_records_trivial_success_witness :
    update_supabase_database ⟨some "u", some "k"⟩ (fun _ => NetResult.status 200)
        "projections" ([] : List Nat) = (true, []) :=
  C6_empty_records_trivial_success ⟨some "u", some "k"⟩
    (fun _ => NetResult.status 200) "projections" rfl rfl

/-- C7: with credentials present, a 250-record input and every response status
in {200, 201}, the upload succeeds and issues exactly 3 write calls whose
batch sizes, in order, are 100, 100 and 50. -/
theorem C7_250_records_three_batches {α : Type} (cfg : Config)
    (net : Nat → NetResult) (data_type : String) (data : List α)
    (hu : truthy cfg.supabase_url = true) (hk : truthy cfg.supabase_key = true)
    (hlen : data.length = 250) (hok : ∀ k, isOk (net k) = true) :
    (update_supabase_database cfg net data_type data).1 = true
    ∧ (update_supabase_database cfg net data_type data).2.map
        (fun c => c.body.length) = [100, 100, 50] := by
  rw [update_supabase_database_creds cfg net data_type data hu hk]
  rw [uploadLoop_all_ok _ net data _ 0 (fun m _ => hok (0 + m))]
  rw [hlen, pyRange_0_250]
  refine ⟨rfl, ?_⟩
  simp [pySlice, hlen, batch_size]

theorem C7_250_records_three_batches_witness :
    (update_supabase_database ⟨some "u", some "k"⟩ (fun _ => NetResult.status 201)
        "players" (List.range 250)).1 = true
    ∧ (update_supabase_database ⟨some "u", some "k"⟩ (fun _ => NetResult.status 201)
        "players" (List.range 250)).2.map (fun c => c.body.length) = [100, 100, 50] :=
  C7_250_records_three_batches ⟨some "u", some "k"⟩ (fun _ => NetResult.status 201)
    "players" (List.range 250) rfl rfl (by simp) (fun _ => rfl)

/-- C4: the resource name in the request URL is the static mapping entry for
the three known data types and the literal data type string otherwise, and
every issued call targets `base_url/rest/v1/resource_name`. -/
theorem C4_resource_name_mapping {α : Type} (cfg : Config)
    (net : Nat → NetResult) (data_type : String) (data : List α)
    (hu : truthy cfg.supabase_url = true) (hk : truthy cfg.supabase_key = true) :
    tableName "players" = "nfl_players"
    ∧ tableName "stats" = "player_game_stats"
    ∧ tableName "projections" = "player_projections"
    ∧ (data_type ∉ table_mapping.map Prod.fst → tableName data_type = data_type)
    ∧ ∀ c ∈ (update_supabase_database cfg net data_type data).2,
        c.url = cfg.supabase_url.getD "" ++ "/rest/v1/" ++ tableName data_type := by
  refine ⟨rfl, rfl, rfl, ?_, ?_⟩
  · intro hmem
    simp [table_mapping] at hmem
    obtain ⟨h1, h2, h3⟩ := hmem
    have b1 : (data_type == "players") = false := by simpa using h1
    have b2 : (data_type == "stats") = false := by simpa using h2
    have b3 : (data_type == "projections") = false := by simpa using h3
    simp [tableName, table_mapping, List.lookup, b1, b2, b3]
  · intro c hc
    rw [update_supabase_database_creds cfg net data_type data hu hk] at hc
    exact uploadLoop_urls _ net data _ 0 c hc

theorem C4_resource_name_mapping_witness :
    tableName "players" = "nfl_players"
    ∧ tableName "unknown_type" = "unknown_type" := by
  have h := C4_resource_name_mapping ⟨some "u", some "k"⟩
    (fun _ => NetResult.status 200) "unknown_type" [1, 2, 3] rfl rfl
  exact ⟨h.1, h.2.2.2.1 (by simp [table_mapping])⟩

/-- C5: if a batch write raises a transport-level exception after a prefix of
successful batches, the upload attempts no further batches and returns false,
and the returned value is identical to the one produced when the same batch
instead fails with a non-2xx status. -/
theorem C5_exception_equals_status_failure {α : Type} (cfg : Config)
    (net : Nat → NetResult) (data_type : String) (data : List α)
    (hu : truthy cfg.supabase_url = true) (hk : truthy cfg.supabase_key = true)
    (j : Nat) (msg : String)
    (hj : j < (pyRange 0 data.length batch_size).length)
    (hpre : ∀ m, m < j → isOk (net m) = true)
    (hexc : net j = NetResult.exc msg) :
    (update_supabase_database cfg net data_type data).1 = false
    ∧ (update_supabase_database cfg net data_type data).2.length = j + 1
    ∧ (update_supabase_database cfg net data_type data).1 =
        (update_supabase_database cfg
          (fun k => if k = j then NetResult.status 500 else net k)
          data_type data).1 := by
  have hfail := uploadLoop_fail_at
    (cfg.supabase_url.getD "" ++ "/rest/v1/" ++ tableName data_type) net data
    (pyRange 0 data.length batch_size) 0 j hj
    (fun m hm => by simpa using hpre m hm)
    (by
      have : isOk (net j) = false := by rw [hexc]; rfl
      simpa using this)
  have hfail2 := uploadLoop_fail_at
    (cfg.supabase_url.getD "" ++ "/rest/v1/" ++ tableName data_type)
    (fun k => if k = j then NetResult.status 500 else net k) data
    (pyRange 0 data.length batch_size) 0 j hj
    (fun m hm => by
      have hne : ¬(m = j) := by omega
      simpa [hne] using hpre m hm)
    (by simp [isOk])
  rw [update_supabase_database_creds cfg net data_type data hu hk]
  rw [update_supabase_database_creds cfg
    (fun k => if k = j then NetResult.status 500 else net k) data_type data hu hk]
  exact ⟨hfail.1, hfail.2, by rw [hfail.1, hfail2.1]⟩

theorem C5_exception_equals_status_failure_witness :
    (update_supabase_database ⟨some "u", some "k"⟩
        (fun k => if k == 1 then NetResult.exc "connection reset"
                  else NetResult.status 200)
        "players" (List.range 250)).1 = false
    ∧ (update_supabase_database ⟨some "u", some "k"⟩
        (fun k => if k == 1 then NetResult.exc "connection reset"
                  else NetResult.status 200)
        "players" (List.range 250)).2.length = 2 := by
  have h := C5_exception_equals_status_failure ⟨some "u", some "k"⟩
    (fun k => if k == 1 then NetResult.exc "connection reset"
              else NetResult.status 200)
    "players" (List.range 250) rfl rfl 1 "connection reset"
    (by norm_num [pyRange_0_250])
    (by
      intro m hm
      have hm0 : m = 0 := by omega
      subst hm0
      rfl)
    rfl
  exact ⟨h.1, h.2.1⟩

/-- C8: an upstream fetch failure is caught and yields an empty result, and
the full pipeline still executes all of its eight steps, in source order,
whatever the outcome of each step. -/
theorem C8_fetch_error_empty_pipeline_continues {α : Type} (e : String)
    (env : PipelineEnv α) :
    fetch_roster_data (Except.error e : Except String (List α)) = []
    ∧ (run_full_pipeline env).map Prod.fst =
        ["teams", "rosters", "schedule", "injuries", "passing", "rushing",
         "receiving", "projections"]
    ∧ ("rosters", 0) ∈ run_full_pipeline
        (PipelineEnv.mk env.teams (Except.error e) env.schedule env.injuries
          env.passing env.rushing env.receiving env.projections) := by
  refine ⟨rfl, rfl, ?_⟩
  simp [run_full_pipeline, fetch_roster_data]

/-- C9: in the simplified pipeline, if any step raises an exception, the
top-level run logs the failure and re-raises the same exception to the
caller. -/
theorem C9_simple_pipeline_reraises {α : Type} (env : SimpleEnv α) (e : String)
    (hfail :
      env.teams = Except.error e
      ∨ ((∃ t, env.teams = Except.ok t) ∧ env.rosters = Except.error e)
      ∨ ((∃ t, env.teams = Except.ok t) ∧ (∃ r, env.rosters = Except.ok r)
          ∧ env.stats = Except.error e)
      ∨ ((∃ t, env.teams = Except.ok t) ∧ (∃ r, env.rosters = Except.ok r)
          ∧ (∃ s, env.stats = Except.ok s)
          ∧ env.projections = Except.error e)) :
    run_simple_pipeline env = ("Pipeline failed: " ++ e, Except.error e) := by
  obtain ⟨et, er, es, ep⟩ := env
  rcases hfail with h
    | ⟨⟨t, ht⟩, h⟩
    | ⟨⟨t, ht⟩, ⟨r, hr⟩, h⟩
    | ⟨⟨t, ht⟩, ⟨r, hr⟩, ⟨s, hs⟩, h⟩ <;>
    subst_vars <;> rfl

theorem C9_simple_pipeline_reraises_witness :
    run_simple_pipeline
        (SimpleEnv.mk (Except.error "disk full") (Except.ok [1])
          (Except.ok [2]) (Except.ok [3])) =
      ("Pipeline failed: " ++ "disk full", Except.error "disk full") :=
  C9_simple_pipeline_reraises
    (SimpleEnv.mk (Except.error "disk full") (Except.ok [1])
      (Except.ok [2]) (Except.ok [3])) "disk full" (Or.inl rfl)

/-- C10: the upload never mutates the caller's record sequence: threading the
list through every operation of the source that touches it, the final state
equals the input, and the observable result agrees with the direct model. -/
theorem C10_upload_does_not_mutate_input {α : Type} (cfg : Config)
    (net : Nat → NetResult) (data_type : String) (data : List α) :
    (update_supabase_database_st cfg net data_type data).2 = data
    ∧ (update_supabase_database_st cfg net data_type data).1 =
        update_supabase_database cfg net data_type data := by
  by_cases h : (!(truthy cfg.supabase_url) || !(truthy cfg.supabase_key)) = true
  · rw [update_supabase_database_st, update_supabase_database, if_pos h, if_pos h]
    exact ⟨rfl, rfl⟩
  · rw [update_supabase_database_st, update_supabase_database, if_neg h, if_neg h]
    simp only [pyLen]
    rw [uploadLoopSt_spec]
    exact ⟨rfl, rfl⟩

end WaiverWire
